import Mathlib

/-!
Verification of the MySensors node-side core (`src/core/MySensorsCore.h`)
against its natural-language specification.

The repository ships the core header with the inline message builders
`build` and `buildGw`; the remaining operations (`send`, `_sleep`, `wait`,
the node-lock boot gate, the deprecated `smartSleep` aliases and
`getSleepRemaining`) are declared in the header but their bodies live in a
translation unit that is not part of the sources at hand.  Those operations
are modelled here from the specification text, as documented on each
definition.
-/

namespace MySensors

/-! ## Data model -/

/-- Modelled from the spec: the protocol message (the `MyMessage` type of
`MyMessage.h` is not among the sources; only its field names appear in the
spec's data model §3): sender, destination, sensor/child id, command, type,
payload, `requestEcho` flag and `echo` flag. -/
structure MyMessage where
  sender : Nat
  destination : Nat
  sensor : Nat
  command : Nat
  msgType : Nat
  payload : List Nat
  requestEcho : Bool
  echo : Bool
deriving DecidableEq

/-- Modelled from the spec: the `mSetCommand` field setter of `MyMessage.h`
(not among the sources); writes the command class of the message. -/
def mSetCommand (msg : MyMessage) (command : Nat) : MyMessage :=
  { msg with command := command }

/-- Modelled from the spec: the `mSetRequestEcho` field setter of
`MyMessage.h` (not among the sources); writes the `requestEcho` flag. -/
def mSetRequestEcho (msg : MyMessage) (echo : Bool) : MyMessage :=
  { msg with requestEcho := echo }

/-- Modelled from the spec: the `mSetEcho` field setter of `MyMessage.h`
(not among the sources); writes the `echo` flag. -/
def mSetEcho (msg : MyMessage) (echo : Bool) : MyMessage :=
  { msg with echo := echo }

/-- Constant `GATEWAY_ADDRESS ((uint8_t)0)` — node id of the gateway. -/
def GATEWAY_ADDRESS : Nat := 0

/-- Constant `NODE_SENSOR_ID ((uint8_t)255)` — sensor id of the node itself. -/
def NODE_SENSOR_ID : Nat := 255

/-- Constant `MY_WAKE_UP_BY_TIMER ((int8_t)-1)` — sleep woke up by timer. -/
def MY_WAKE_UP_BY_TIMER : Int := -1

/-- Constant `MY_SLEEP_NOT_POSSIBLE ((int8_t)-2)` — sleeping not possible. -/
def MY_SLEEP_NOT_POSSIBLE : Int := -2

/-- Constant `INTERRUPT_NOT_DEFINED ((uint8_t)255)` — no interrupt given. -/
def INTERRUPT_NOT_DEFINED : Nat := 255

/-- Constant `MODE_NOT_DEFINED ((uint8_t)255)` — no interrupt mode given. -/
def MODE_NOT_DEFINED : Nat := 255

/-- Modelled from the spec: the command class tag of core-internal messages
(`C_INTERNAL` of `MyMessage.h`, not among the sources).  The concrete value
is irrelevant to the claims; only its identity as the internal class is. -/
def C_INTERNAL : Nat := 3

/-! ## Message builder (`MySensorsCore.h` lines 484–507, inline in src) -/

/-- Function `build(msg, destination, sensor, command, type, echo)` — the inline
builder of `MySensorsCore.h`: writes sender (own node id, from
`getNodeId()`, passed explicitly since the id store is hardware state),
destination, sensor, type, then sets command, `requestEcho := echo` and
`echo := false`, returning the rewritten message. -/
def build (nodeId : Nat) (msg : MyMessage) (destination sensor command msgType : Nat)
    (echo : Bool) : MyMessage :=
  let m1 := { msg with sender := nodeId }
  let m2 := { m1 with destination := destination }
  let m3 := { m2 with sensor := sensor }
  let m4 := { m3 with msgType := msgType }
  let m5 := mSetCommand m4 command
  let m6 := mSetRequestEcho m5 echo
  mSetEcho m6 false

/-- Function `buildGw(msg, type)` — the inline gateway builder of `MySensorsCore.h`:
sender and destination become `GATEWAY_ADDRESS`, sensor becomes
`NODE_SENSOR_ID`, command becomes `C_INTERNAL`, `requestEcho := false`,
`echo := false`. -/
def buildGw (msg : MyMessage) (msgType : Nat) : MyMessage :=
  let m1 := { msg with sender := GATEWAY_ADDRESS }
  let m2 := { m1 with destination := GATEWAY_ADDRESS }
  let m3 := { m2 with sensor := NODE_SENSOR_ID }
  let m4 := { m3 with msgType := msgType }
  let m5 := mSetCommand m4 C_INTERNAL
  let m6 := mSetRequestEcho m5 false
  mSetEcho m6 false

/-! ## Send/route dispatcher (`send`, declared at `MySensorsCore.h:173`) -/

/-- The `!MCO:SND:NODE NOT REG` log line (`MySensorsCore.h:51`): node not
registered, cannot send message. -/
def MCO_SND_NODE_NOT_REG : String := "!MCO:SND:NODE NOT REG"

/-- Modelled from the spec: the environment `send` consults — whether this
node is the gateway, the `nodeRegistered` flag of `coreConfig_t`
(`MySensorsCore.h:104`), and the external `_sendRoute` routing/transport
collaborator, abstracted as its accepted-for-first-hop verdict. -/
structure SendEnv where
  isGateway : Bool
  nodeRegistered : Bool
  sendRouteAccepts : MyMessage → Bool

/-- Modelled from the spec: whether a message is exempt from the
registration gate — the registration-request message itself and the other
core-internal bootstrap messages, i.e. the messages of command class
`C_INTERNAL`. -/
def isCoreBootstrap (msg : MyMessage) : Bool :=
  msg.command == C_INTERNAL

/-- Modelled from the spec: `send(msg, echo)`, whose body is not among the
sources (only its declaration, `MySensorsCore.h:173`).  Per spec §4.3: if
the node is not the gateway and not yet `nodeRegistered`, and the message
is not a core-internal bootstrap message, the call fails immediately,
returning false and logging `!MCO:SND:NODE NOT REG`; otherwise it sets
`requestEcho` from the parameter and delegates to `_sendRoute`, returning
its accepted-for-first-hop verdict.  Result: (return value, message as
handed onward, log lines emitted). -/
def send (env : SendEnv) (msg : MyMessage) (echo : Bool) :
    Bool × MyMessage × List String :=
  let m := mSetRequestEcho msg echo
  if !env.isGateway && !env.nodeRegistered && !(isCoreBootstrap m) then
    (false, m, [MCO_SND_NODE_NOT_REG])
  else
    (env.sendRouteAccepts m, m, [])

/-! ## Sleep/wake controller (`_sleep`, declared at `MySensorsCore.h:387`) -/

/-- The `!MCO:SLP:FWUPD` log line (`MySensorsCore.h:57`): sleeping not
possible, FW update ongoing. -/
def MCO_SLP_FWUPD : String := "!MCO:SLP:FWUPD"

/-- The `!MCO:SLP:REP` log line (`MySensorsCore.h:58`): sleeping not
possible, repeater feature enabled. -/
def MCO_SLP_REP : String := "!MCO:SLP:REP"

/-- The `!MCO:SLP:TNR` log line (`MySensorsCore.h:59`): transport not
ready, reconnection attempted until timeout. -/
def MCO_SLP_TNR : String := "!MCO:SLP:TNR"

/-- Modelled from the spec: the hardware wake cause consumed once by the
sleep controller after resume — timer expiry, or a pin-change interrupt
with its identifier and the milliseconds of the requested duration that had
elapsed when it fired. -/
inductive WakeCause where
  | timer : WakeCause
  | interrupt (intId : Nat) (elapsedMS : Nat) : WakeCause
deriving DecidableEq

/-- Modelled from the spec: the environment `_sleep` consults — whether a
firmware update is ongoing, whether the repeater capability is enabled,
whether the transport became ready within the bounded reconnection timeout,
and the wake cause delivered by the hardware if the node does power down. -/
structure SleepEnv where
  fwUpdateOngoing : Bool
  repeaterEnabled : Bool
  transportReadyWithinTimeout : Bool
  wake : WakeCause
deriving DecidableEq

/-- Result of one `_sleep` cycle: the `int8_t` return value, the stored
sleep-remaining counter read back by `getSleepRemaining()`, and the log
lines emitted. -/
structure SleepResult where
  result : Int
  sleepRemainingMS : Nat
  log : List String
deriving DecidableEq

/-- Modelled from the spec: `_sleep(sleepingMS, smartSleep, interrupt1,
mode1, interrupt2, mode2)`, whose body is not among the sources (only its
declaration, `MySensorsCore.h:387`).  Per spec §4.5: each failed
precondition (repeater capability enabled, firmware update in progress,
transport not ready within the reconnection timeout) returns
`MY_SLEEP_NOT_POSSIBLE` with its log line and leaves the sleep-remaining
counter unspecified (modelled as its previous value); otherwise the node
powers down and, on resume, returns `MY_WAKE_UP_BY_TIMER` with zero
remaining when the timer expired, or the triggering interrupt's identifier
with the unused portion of the requested duration when a pin-change
interrupt fired. -/
def _sleep (env : SleepEnv) (prevRemainingMS : Nat) (sleepingMS : Nat)
    (smartSleep : Bool) (interrupt1 mode1 interrupt2 mode2 : Nat) : SleepResult :=
  if env.repeaterEnabled then
    ⟨MY_SLEEP_NOT_POSSIBLE, prevRemainingMS, [MCO_SLP_REP]⟩
  else if env.fwUpdateOngoing then
    ⟨MY_SLEEP_NOT_POSSIBLE, prevRemainingMS, [MCO_SLP_FWUPD]⟩
  else if !env.transportReadyWithinTimeout then
    ⟨MY_SLEEP_NOT_POSSIBLE, prevRemainingMS, [MCO_SLP_TNR]⟩
  else
    match env.wake with
    | WakeCause.timer => ⟨MY_WAKE_UP_BY_TIMER, 0, []⟩
    | WakeCause.interrupt intId elapsedMS =>
        ⟨Int.ofNat intId, sleepingMS - elapsedMS, []⟩

/-- Modelled from the spec: `getSleepRemaining()` (declared at
`MySensorsCore.h:396`) reads back the sleep-remaining counter stored by the
last `_sleep` cycle. -/
def getSleepRemaining (r : SleepResult) : Nat :=
  r.sleepRemainingMS

/-- Public overload `sleep(sleepingMS, smartSleep)`
(`MySensorsCore.h:311`): per spec §4.5 a thin constructor passing no
interrupts into the unified `_sleep`. -/
def sleepMs (env : SleepEnv) (prevRemainingMS : Nat) (sleepingMS : Nat)
    (smartSleep : Bool) : SleepResult :=
  _sleep env prevRemainingMS sleepingMS smartSleep
    INTERRUPT_NOT_DEFINED MODE_NOT_DEFINED INTERRUPT_NOT_DEFINED MODE_NOT_DEFINED

/-- Public overload `sleep(interrupt, mode, sleepingMS, smartSleep)`
(`MySensorsCore.h:323`): per spec §4.5 a thin constructor passing one
interrupt descriptor into the unified `_sleep`. -/
def sleepInt1 (env : SleepEnv) (prevRemainingMS : Nat) (interrupt mode : Nat)
    (sleepingMS : Nat) (smartSleep : Bool) : SleepResult :=
  _sleep env prevRemainingMS sleepingMS smartSleep
    interrupt mode INTERRUPT_NOT_DEFINED MODE_NOT_DEFINED

/-- Public overload `sleep(interrupt1, mode1, interrupt2, mode2,
sleepingMS, smartSleep)` (`MySensorsCore.h:338`): per spec §4.5 a thin
constructor passing two interrupt descriptors into the unified `_sleep`. -/
def sleepInt2 (env : SleepEnv) (prevRemainingMS : Nat)
    (interrupt1 mode1 interrupt2 mode2 : Nat) (sleepingMS : Nat)
    (smartSleep : Bool) : SleepResult :=
  _sleep env prevRemainingMS sleepingMS smartSleep interrupt1 mode1 interrupt2 mode2

/-- Modelled from the spec: the deprecated `smartSleep(sleepingMS)`
overload (`MySensorsCore.h:348`), a pure alias for `sleep(sleepingMS,
true)`. -/
def smartSleepMs (env : SleepEnv) (prevRemainingMS : Nat) (sleepingMS : Nat) : SleepResult :=
  sleepMs env prevRemainingMS sleepingMS true

/-- Modelled from the spec: the deprecated `smartSleep(interrupt, mode,
sleepingMS)` overload (`MySensorsCore.h:359`), a pure alias for
`sleep(interrupt, mode, sleepingMS, true)`. -/
def smartSleepInt1 (env : SleepEnv) (prevRemainingMS : Nat) (interrupt mode : Nat)
    (sleepingMS : Nat) : SleepResult :=
  sleepInt1 env prevRemainingMS interrupt mode sleepingMS true

/-- Modelled from the spec: the deprecated `smartSleep(interrupt1, mode1,
interrupt2, mode2, sleepingMS)` overload (`MySensorsCore.h:372`), a pure
alias for `sleep(interrupt1, mode1, interrupt2, mode2, sleepingMS,
true)`. -/
def smartSleepInt2 (env : SleepEnv) (prevRemainingMS : Nat)
    (interrupt1 mode1 interrupt2 mode2 : Nat) (sleepingMS : Nat) : SleepResult :=
  sleepInt2 env prevRemainingMS interrupt1 mode1 interrupt2 mode2 sleepingMS true

/-! ## Event loop driver (`wait`, declared at `MySensorsCore.h:273-296`) -/

/-- The `!MCO:WAI:RC` log line (`MySensorsCore.h:53`): recursive call
detected in `wait()`. -/
def MCO_WAI_RC : String := "!MCO:WAI:RC"

/-- Modelled from the spec: the explicit reentrancy state machine of §9 for
the single global wait state — IDLE when no `wait` is active, WAITING while
one is. -/
inductive WaitPhase where
  | idle : WaitPhase
  | waiting : WaitPhase
deriving DecidableEq

/-- Modelled from the spec: the single piece of global timeout/match state
kept by `wait` — the phase, the absolute deadline of the active wait, the
optional command/type match filters, and the emitted log lines. -/
structure WaitCtx where
  phase : WaitPhase
  deadline : Nat
  cmdFilter : Option Nat
  typeFilter : Option Nat
  log : List String
deriving DecidableEq

/-- Modelled from the spec: entry into `wait(waitingMS[, cmd[, msgtype]])`
(declared at `MySensorsCore.h:273-296`), whose body is not among the
sources.  Per spec §4.6: a call arriving while the state machine is already
WAITING is a reentrancy violation — it is logged (`!MCO:WAI:RC`) and
rejected, leaving the outer wait's timeout and match state untouched; an
outermost call records the deadline `now + waitingMS` and the filters and
enters WAITING. -/
def waitEnter (st : WaitCtx) (now waitingMS : Nat)
    (cmdFilter typeFilter : Option Nat) : Bool × WaitCtx :=
  if st.phase = WaitPhase.waiting then
    (false, { st with log := MCO_WAI_RC :: st.log })
  else
    (true, { st with phase := WaitPhase.waiting, deadline := now + waitingMS,
                     cmdFilter := cmdFilter, typeFilter := typeFilter })

/-- Modelled from the spec: one cooperative tick of the outer wait loop —
`_process` may run the user `receive` callback, which may attempt a nested
`wait` of some duration; any such attempt goes through `waitEnter` on the
same global state. -/
def waitTick (nestedCall : Nat → Option Nat) (st : WaitCtx) (now : Nat) : WaitCtx :=
  match nestedCall now with
  | none => st
  | some ms => (waitEnter st now ms none none).2

/-- Modelled from the spec: the timed loop of `wait` — repeatedly run one
cooperative tick (advancing the clock by at least one ms per iteration)
until the recorded deadline is reached, then return to IDLE.  Returns the
exit time and the final state. -/
def waitLoop (nestedCall : Nat → Option Nat) : Nat → WaitCtx → Nat → Nat × WaitCtx
  | 0, st, now => (now, { st with phase := WaitPhase.idle })
  | fuel + 1, st, now =>
      if st.deadline ≤ now then (now, { st with phase := WaitPhase.idle })
      else waitLoop nestedCall fuel (waitTick nestedCall st now) (now + 1)

/-- Modelled from the spec: a full `wait(waitingMS)` call starting at time
`now` — enter through `waitEnter`, and if admitted run the timed loop. -/
def wait (nestedCall : Nat → Option Nat) (st : WaitCtx) (now waitingMS : Nat) :
    Nat × WaitCtx :=
  let r := waitEnter st now waitingMS none none
  if r.1 then waitLoop nestedCall waitingMS r.2 now else (now, r.2)

/-! ## Security lock (`_checkNodeLock`/`_nodeLock`, `MySensorsCore.h:407-421`) -/

/-- Modelled from the spec: the fixed tamper threshold
(`MY_NODE_LOCK_COUNTER_MAX` of `MyConfig.h`, not among the sources); its
concrete value is deployment tuning, not a behavioural contract. -/
def MY_NODE_LOCK_COUNTER_MAX : Nat := 5

/-- Modelled from the spec: the persisted lock state — the tamper counter
kept in non-volatile storage by the external persistence collaborator. -/
structure LockState where
  tamperCounter : Nat
deriving DecidableEq

/-- Modelled from the spec: whether the persisted state is LOCKED — the
tamper counter exceeds the fixed threshold. -/
def nodeLocked (ls : LockState) : Bool :=
  decide (MY_NODE_LOCK_COUNTER_MAX < ls.tamperCounter)

/-- The steps of one boot session, in the order spec §2 gives the boot
sequence: the lock gate, hardware/transport init, registration, then the
user hooks; `lockHalt` marks entry into `_nodeLock`'s non-returning loop. -/
inductive BootStep where
  | lockCheck : BootStep
  | hwInit : BootStep
  | transportInit : BootStep
  | registration : BootStep
  | userSetup : BootStep
  | userLoop : BootStep
  | lockHalt : BootStep
deriving DecidableEq

/-- Modelled from the spec: the boot sequence of one session as the list of
steps that execute.  `_checkNodeLock()` runs first; if the persisted state
is LOCKED it calls `_nodeLock()` — which never returns — so no further boot
step and no user code executes; otherwise boot proceeds through
hardware/transport init, registration and the user hooks. -/
def bootTrace (ls : LockState) : List BootStep :=
  if nodeLocked ls then
    [BootStep.lockCheck, BootStep.lockHalt]
  else
    [BootStep.lockCheck, BootStep.hwInit, BootStep.transportInit,
     BootStep.registration, BootStep.userSetup, BootStep.userLoop]

/-- State of `_nodeLock`'s loop: how many lock messages have been
transmitted, and whether the loop has exited. -/
structure NodeLockLoopState where
  transmissions : Nat
  exited : Bool
deriving DecidableEq

/-- Modelled from the spec: one fixed-interval iteration of `_nodeLock`'s
non-returning loop — transmit the lock message toward the gateway
best-effort and emit the unlock-instruction log; the loop never sets the
exit flag. -/
def nodeLockStep (s : NodeLockLoopState) : NodeLockLoopState :=
  { s with transmissions := s.transmissions + 1 }

end MySensors

namespace MySensors

/-- C1: for every message and all valid inputs with ids in 0–254, `build`
produces a message whose sender is this node's own id, whose `echo` flag is
false and whose `requestEcho` flag equals the input echo flag; being a Lean
function of its arguments over the explicit message value, the transform is
pure and writes only message fields. -/
theorem build_sender_echo_requestEcho (nodeId : Nat) (msg : MyMessage)
    (destination sensor command msgType : Nat) (echo : Bool)
    (hn : nodeId ≤ 254) (hd : destination ≤ 254) (hs : sensor ≤ 254) :
    (build nodeId msg destination sensor command msgType echo).sender = nodeId ∧
    (build nodeId msg destination sensor command msgType echo).echo = false ∧
    (build nodeId msg destination sensor command msgType echo).requestEcho = echo := by
  refine ⟨rfl, rfl, rfl⟩

/-- C1 witness: `build` evaluated at a concrete valid input. -/
theorem build_sender_echo_requestEcho_witness :
    (build 7 ⟨1, 2, 3, 4, 5, [9], true, true⟩ 20 30 1 40 true).sender = 7 ∧
    (build 7 ⟨1, 2, 3, 4, 5, [9], true, true⟩ 20 30 1 40 true).echo = false ∧
    (build 7 ⟨1, 2, 3, 4, 5, [9], true, true⟩ 20 30 1 40 true).requestEcho = true :=
  build_sender_echo_requestEcho 7 ⟨1, 2, 3, 4, 5, [9], true, true⟩ 20 30 1 40 true
    (by decide) (by decide) (by decide)

/-- C8: `buildGw(msg, type)` overwrites the sender and destination with the
gateway address, the sensor id with `NODE_SENSOR_ID`, the type with the
argument and the command with `C_INTERNAL`; it writes the `requestEcho`
flag (with the constant `false` it supplies, `buildGw` taking no echo
parameter) and forces `echo = false`; as a Lean function it is pure and
total with no failure mode. -/
theorem buildGw_fields (msg : MyMessage) (msgType : Nat) :
    (buildGw msg msgType).sender = GATEWAY_ADDRESS ∧
    (buildGw msg msgType).destination = GATEWAY_ADDRESS ∧
    (buildGw msg msgType).sensor = NODE_SENSOR_ID ∧
    (buildGw msg msgType).msgType = msgType ∧
    (buildGw msg msgType).command = C_INTERNAL ∧
    (buildGw msg msgType).requestEcho = false ∧
    (buildGw msg msgType).echo = false :=
  ⟨rfl, rfl, rfl, rfl, rfl, rfl, rfl⟩

/-- C10: `build` and `buildGw` modify only the fields sender, destination,
sensor, type, command, `requestEcho` and `echo`: the payload — the only
remaining field of the message — is left unchanged, and each function's
result is exactly the input message with those seven fields rewritten (the
shallow rendering of returning a reference to the message it was given). -/
theorem build_buildGw_frame (nodeId : Nat) (msg : MyMessage)
    (destination sensor command msgType gwType : Nat) (echo : Bool) :
    (build nodeId msg destination sensor command msgType echo).payload = msg.payload ∧
    (buildGw msg gwType).payload = msg.payload ∧
    build nodeId msg destination sensor command msgType echo =
      { msg with sender := nodeId, destination := destination, sensor := sensor,
                 msgType := msgType, command := command, requestEcho := echo,
                 echo := false } ∧
    buildGw msg gwType =
      { msg with sender := GATEWAY_ADDRESS, destination := GATEWAY_ADDRESS,
                 sensor := NODE_SENSOR_ID, msgType := gwType, command := C_INTERNAL,
                 requestEcho := false, echo := false } :=
  ⟨rfl, rfl, rfl, rfl⟩

/-- C2: if the node is not the gateway and `nodeRegistered` is still false,
`send(msg, echo)` fails immediately — returns false and logs
`!MCO:SND:NODE NOT REG` — for every non-exempt message, while a
core-internal bootstrap message (the registration request among them) is
exempt from the check and is still handed to `_sendRoute` for the first
hop. -/
theorem send_registration_gate (env : SendEnv) (msg : MyMessage) (echo : Bool)
    (hgw : env.isGateway = false) (hreg : env.nodeRegistered = false) :
    (isCoreBootstrap msg = false →
        (send env msg echo).1 = false ∧
        MCO_SND_NODE_NOT_REG ∈ (send env msg echo).2.2) ∧
    (isCoreBootstrap msg = true →
        (send env msg echo).1 = env.sendRouteAccepts (mSetRequestEcho msg echo)) := by
  have hboot : isCoreBootstrap (mSetRequestEcho msg echo) = isCoreBootstrap msg := rfl
  constructor
  · intro hex
    simp [send, hgw, hreg, hboot, hex]
  · intro hex
    simp [send, hgw, hreg, hboot, hex]

/-- C2 witness: a concrete unregistered non-gateway node, with a non-exempt
message refused and logged; the bootstrap clause holds vacuously here and is
exercised through the same theorem application. -/
theorem send_registration_gate_witness :
    (isCoreBootstrap ⟨0, 0, 1, 1, 2, [], false, false⟩ = false →
        (send ⟨false, false, fun _ => true⟩ ⟨0, 0, 1, 1, 2, [], false, false⟩ false).1 = false ∧
        MCO_SND_NODE_NOT_REG ∈
          (send ⟨false, false, fun _ => true⟩ ⟨0, 0, 1, 1, 2, [], false, false⟩ false).2.2) ∧
    (isCoreBootstrap ⟨0, 0, 1, 1, 2, [], false, false⟩ = true →
        (send ⟨false, false, fun _ => true⟩ ⟨0, 0, 1, 1, 2, [], false, false⟩ false).1 =
          SendEnv.sendRouteAccepts ⟨false, false, fun _ => true⟩
            (mSetRequestEcho ⟨0, 0, 1, 1, 2, [], false, false⟩ false)) :=
  send_registration_gate ⟨false, false, fun _ => true⟩ ⟨0, 0, 1, 1, 2, [], false, false⟩
    false rfl rfl

/-- C3: every `_sleep` invocation returns exactly one of
`MY_WAKE_UP_BY_TIMER` (-1) when the timer expired, the triggering
interrupt's identifier (≥ 0) when woken by a pin-change interrupt, or
`MY_SLEEP_NOT_POSSIBLE` (-2) when a sleep precondition fails; no other
value occurs. -/
theorem sleep_result_encoding (env : SleepEnv) (prevRemainingMS sleepingMS : Nat)
    (smartSleep : Bool) (interrupt1 mode1 interrupt2 mode2 : Nat) :
    ((env.repeaterEnabled || env.fwUpdateOngoing || !env.transportReadyWithinTimeout) = true →
        (_sleep env prevRemainingMS sleepingMS smartSleep
          interrupt1 mode1 interrupt2 mode2).result = MY_SLEEP_NOT_POSSIBLE) ∧
    ((env.repeaterEnabled || env.fwUpdateOngoing || !env.transportReadyWithinTimeout) = false →
        (env.wake = WakeCause.timer →
          (_sleep env prevRemainingMS sleepingMS smartSleep
            interrupt1 mode1 interrupt2 mode2).result = MY_WAKE_UP_BY_TIMER) ∧
        (∀ intId elapsedMS, env.wake = WakeCause.interrupt intId elapsedMS →
          (_sleep env prevRemainingMS sleepingMS smartSleep
            interrupt1 mode1 interrupt2 mode2).result = Int.ofNat intId ∧
          0 ≤ (_sleep env prevRemainingMS sleepingMS smartSleep
            interrupt1 mode1 interrupt2 mode2).result)) ∧
    ((_sleep env prevRemainingMS sleepingMS smartSleep
        interrupt1 mode1 interrupt2 mode2).result = MY_WAKE_UP_BY_TIMER ∨
     (_sleep env prevRemainingMS sleepingMS smartSleep
        interrupt1 mode1 interrupt2 mode2).result = MY_SLEEP_NOT_POSSIBLE ∨
     0 ≤ (_sleep env prevRemainingMS sleepingMS smartSleep
        interrupt1 mode1 interrupt2 mode2).result) := by
  obtain ⟨fw, rep, tr, wk⟩ := env
  refine ⟨?_, ?_, ?_⟩
  · intro h
    cases rep <;> cases fw <;> cases tr <;>
      simp_all [_sleep]
  · intro h
    cases rep <;> cases fw <;> cases tr <;> simp_all
    constructor
    · intro hwk
      simp [_sleep, hwk]
    · intro intId elapsedMS hwk
      constructor
      · simp [_sleep, hwk]
      · simp [_sleep, hwk]
  · cases rep <;> cases fw <;> cases tr <;> cases wk <;>
      simp [_sleep, MY_SLEEP_NOT_POSSIBLE, MY_WAKE_UP_BY_TIMER, Int.ofNat_nonneg]

/-- C4: with the repeater capability enabled, `_sleep` returns
`MY_SLEEP_NOT_POSSIBLE` and logs the `!MCO:SLP:REP` failure, regardless of
duration, smartSleep flag and interrupt descriptors. -/
theorem sleep_repeater_not_possible (env : SleepEnv)
    (prevRemainingMS sleepingMS : Nat) (smartSleep : Bool)
    (interrupt1 mode1 interrupt2 mode2 : Nat)
    (hrep : env.repeaterEnabled = true) :
    (_sleep env prevRemainingMS sleepingMS smartSleep
      interrupt1 mode1 interrupt2 mode2).result = MY_SLEEP_NOT_POSSIBLE ∧
    MCO_SLP_REP ∈ (_sleep env prevRemainingMS sleepingMS smartSleep
      interrupt1 mode1 interrupt2 mode2).log := by
  simp [_sleep, hrep]

/-- C4 witness: a concrete repeater-enabled environment. -/
theorem sleep_repeater_not_possible_witness :
    (_sleep ⟨false, true, true, WakeCause.timer⟩ 0 1000 false 255 255 255 255).result
      = MY_SLEEP_NOT_POSSIBLE ∧
    MCO_SLP_REP ∈ (_sleep ⟨false, true, true, WakeCause.timer⟩ 0 1000 false
      255 255 255 255).log :=
  sleep_repeater_not_possible ⟨false, true, true, WakeCause.timer⟩ 0 1000 false
    255 255 255 255 rfl

/-- C7: every deprecated `smartSleep(...)` overload is a pure alias of the
corresponding `sleep(...)` overload called with `smartSleep = true`: for
all arguments the two calls produce the same result, both being the
unified `_sleep` applied with the smartSleep flag set. -/
theorem smartSleep_alias (env : SleepEnv) (prevRemainingMS : Nat)
    (interrupt1 mode1 interrupt2 mode2 sleepingMS : Nat) :
    (smartSleepMs env prevRemainingMS sleepingMS
        = sleepMs env prevRemainingMS sleepingMS true ∧
      smartSleepMs env prevRemainingMS sleepingMS
        = _sleep env prevRemainingMS sleepingMS true
            INTERRUPT_NOT_DEFINED MODE_NOT_DEFINED
            INTERRUPT_NOT_DEFINED MODE_NOT_DEFINED) ∧
    (smartSleepInt1 env prevRemainingMS interrupt1 mode1 sleepingMS
        = sleepInt1 env prevRemainingMS interrupt1 mode1 sleepingMS true ∧
      smartSleepInt1 env prevRemainingMS interrupt1 mode1 sleepingMS
        = _sleep env prevRemainingMS sleepingMS true interrupt1 mode1
            INTERRUPT_NOT_DEFINED MODE_NOT_DEFINED) ∧
    (smartSleepInt2 env prevRemainingMS interrupt1 mode1 interrupt2 mode2 sleepingMS
        = sleepInt2 env prevRemainingMS interrupt1 mode1 interrupt2 mode2 sleepingMS true ∧
      smartSleepInt2 env prevRemainingMS interrupt1 mode1 interrupt2 mode2 sleepingMS
        = _sleep env prevRemainingMS sleepingMS true
            interrupt1 mode1 interrupt2 mode2) :=
  ⟨⟨rfl, rfl⟩, ⟨rfl, rfl⟩, ⟨rfl, rfl⟩⟩

/-- C9: after a `_sleep` cycle whose preconditions passed, if the wake
cause was a pin-change interrupt then `getSleepRemaining()` reports the
unused portion of the requested duration — a value no greater than the
requested duration (and non-negative, being a count of milliseconds) — and
if the wake cause was the timer it reports 0. -/
theorem getSleepRemaining_spec (env : SleepEnv)
    (prevRemainingMS sleepingMS : Nat) (smartSleep : Bool)
    (interrupt1 mode1 interrupt2 mode2 : Nat)
    (hrep : env.repeaterEnabled = false) (hfw : env.fwUpdateOngoing = false)
    (htr : env.transportReadyWithinTimeout = true) :
    (∀ intId elapsedMS, env.wake = WakeCause.interrupt intId elapsedMS →
        getSleepRemaining (_sleep env prevRemainingMS sleepingMS smartSleep
            interrupt1 mode1 interrupt2 mode2) = sleepingMS - elapsedMS ∧
        getSleepRemaining (_sleep env prevRemainingMS sleepingMS smartSleep
            interrupt1 mode1 interrupt2 mode2) ≤ sleepingMS) ∧
    (env.wake = WakeCause.timer →
        getSleepRemaining (_sleep env prevRemainingMS sleepingMS smartSleep
            interrupt1 mode1 interrupt2 mode2) = 0) := by
  constructor
  · intro intId elapsedMS hwk
    constructor
    · simp [_sleep, getSleepRemaining, hrep, hfw, htr, hwk]
    · simp [_sleep, getSleepRemaining, hrep, hfw, htr, hwk]
  · intro hwk
    simp [_sleep, getSleepRemaining, hrep, hfw, htr, hwk]

/-- C9 witness: a 1000 ms sleep interrupted by interrupt 1 after 400 ms
leaves 600 ms remaining; the timer clause of the same application holds
vacuously for this wake cause. -/
theorem getSleepRemaining_spec_witness :
    (∀ intId elapsedMS,
        WakeCause.interrupt 1 400 = WakeCause.interrupt intId elapsedMS →
        getSleepRemaining (_sleep ⟨false, false, true, WakeCause.interrupt 1 400⟩
            7 1000 false 1 3 255 255) = 1000 - elapsedMS ∧
        getSleepRemaining (_sleep ⟨false, false, true, WakeCause.interrupt 1 400⟩
            7 1000 false 1 3 255 255) ≤ 1000) ∧
    (WakeCause.interrupt 1 400 = WakeCause.timer →
        getSleepRemaining (_sleep ⟨false, false, true, WakeCause.interrupt 1 400⟩
            7 1000 false 1 3 255 255) = 0) :=
  getSleepRemaining_spec ⟨false, false, true, WakeCause.interrupt 1 400⟩
    7 1000 false 1 3 255 255 rfl rfl rfl

/-- Helper: the timed loop of `wait` exits no later than `fuel`
milliseconds after it starts, whatever nested calls the ticks attempt. -/
theorem waitLoop_exit_le (nestedCall : Nat → Option Nat) :
    ∀ (fuel : Nat) (st : WaitCtx) (now : Nat),
      (waitLoop nestedCall fuel st now).1 ≤ now + fuel := by
  intro fuel
  induction fuel with
  | zero => intro st now; simp [waitLoop]
  | succ f ih =>
      intro st now
      simp only [waitLoop]
      by_cases h : st.deadline ≤ now
      · simp [h]
      · simp only [h, if_false]
        calc (waitLoop nestedCall f (waitTick nestedCall st now) (now + 1)).1
            ≤ (now + 1) + f := ih _ _
          _ = now + (f + 1) := by omega

/-- C5: a `wait` call arriving while an outer wait is active (the state
machine is WAITING) is detected and rejected — it returns failure, logs
the `!MCO:WAI:RC` reentrancy violation, and leaves the outer wait's phase,
deadline and match filters untouched — and every outer `wait` call still
returns no later than its requested duration after its start, whatever
nested calls its ticks attempt. -/
theorem wait_reentrancy_rejected (st : WaitCtx) (now waitingMS : Nat)
    (cmdFilter typeFilter : Option Nat)
    (h : st.phase = WaitPhase.waiting) :
    (waitEnter st now waitingMS cmdFilter typeFilter).1 = false ∧
    MCO_WAI_RC ∈ (waitEnter st now waitingMS cmdFilter typeFilter).2.log ∧
    (waitEnter st now waitingMS cmdFilter typeFilter).2.phase = st.phase ∧
    (waitEnter st now waitingMS cmdFilter typeFilter).2.deadline = st.deadline ∧
    (waitEnter st now waitingMS cmdFilter typeFilter).2.cmdFilter = st.cmdFilter ∧
    (waitEnter st now waitingMS cmdFilter typeFilter).2.typeFilter = st.typeFilter ∧
    (∀ (nestedCall : Nat → Option Nat) (st0 : WaitCtx) (now0 ms0 : Nat),
        (wait nestedCall st0 now0 ms0).1 ≤ now0 + ms0) := by
  refine ⟨?_, ?_, ?_, ?_, ?_, ?_, ?_⟩
  · simp [waitEnter, h]
  · simp [waitEnter, h]
  · simp [waitEnter, h]
  · simp [waitEnter, h]
  · simp [waitEnter, h]
  · simp [waitEnter, h]
  · intro nestedCall st0 now0 ms0
    unfold wait
    by_cases h0 : (waitEnter st0 now0 ms0 none none).1
    · simp only [h0, if_true]
      exact waitLoop_exit_le nestedCall ms0 _ now0
    · simp only [h0]
      simp

/-- C5 witness: a concrete WAITING state rejecting a nested call. -/
theorem wait_reentrancy_rejected_witness :
    (waitEnter ⟨WaitPhase.waiting, 500, none, none, []⟩ 100 200 none none).1 = false ∧
    MCO_WAI_RC ∈ (waitEnter ⟨WaitPhase.waiting, 500, none, none, []⟩ 100 200 none none).2.log ∧
    (waitEnter ⟨WaitPhase.waiting, 500, none, none, []⟩ 100 200 none none).2.phase
      = WaitCtx.phase ⟨WaitPhase.waiting, 500, none, none, []⟩ ∧
    (waitEnter ⟨WaitPhase.waiting, 500, none, none, []⟩ 100 200 none none).2.deadline
      = WaitCtx.deadline ⟨WaitPhase.waiting, 500, none, none, []⟩ ∧
    (waitEnter ⟨WaitPhase.waiting, 500, none, none, []⟩ 100 200 none none).2.cmdFilter
      = WaitCtx.cmdFilter ⟨WaitPhase.waiting, 500, none, none, []⟩ ∧
    (waitEnter ⟨WaitPhase.waiting, 500, none, none, []⟩ 100 200 none none).2.typeFilter
      = WaitCtx.typeFilter ⟨WaitPhase.waiting, 500, none, none, []⟩ ∧
    (∀ (nestedCall : Nat → Option Nat) (st0 : WaitCtx) (now0 ms0 : Nat),
        (wait nestedCall st0 now0 ms0).1 ≤ now0 + ms0) :=
  wait_reentrancy_rejected ⟨WaitPhase.waiting, 500, none, none, []⟩ 100 200 none none rfl

/-- C6: if the persisted lock state is LOCKED at boot, the boot session
runs only the initial `_checkNodeLock` gate and then enters `_nodeLock`:
no hardware/transport init, no registration, and no user `setup`/`loop`
ever executes; the `_nodeLock` loop never exits however many iterations
pass; and the very same truncated trace recurs on every boot whose
persisted tamper counter exceeds the threshold. -/
theorem nodeLock_boot_gate (ls : LockState) (h : nodeLocked ls = true) :
    bootTrace ls = [BootStep.lockCheck, BootStep.lockHalt] ∧
    (bootTrace ls).head? = some BootStep.lockCheck ∧
    BootStep.hwInit ∉ bootTrace ls ∧
    BootStep.transportInit ∉ bootTrace ls ∧
    BootStep.registration ∉ bootTrace ls ∧
    BootStep.userSetup ∉ bootTrace ls ∧
    BootStep.userLoop ∉ bootTrace ls ∧
    (∀ n : Nat, (nodeLockStep^[n] ⟨0, false⟩).exited = false) ∧
    (∀ ls2 : LockState, nodeLocked ls2 = true →
        bootTrace ls2 = [BootStep.lockCheck, BootStep.lockHalt]) := by
  have htr : bootTrace ls = [BootStep.lockCheck, BootStep.lockHalt] := by
    simp [bootTrace, h]
  have hiter : ∀ n : Nat,
      (nodeLockStep^[n] (⟨0, false⟩ : NodeLockLoopState)).exited = false := by
    intro n
    induction n with
    | zero => rfl
    | succ k ih =>
        rw [Function.iterate_succ_apply']
        simpa [nodeLockStep] using ih
  refine ⟨htr, ?_, ?_, ?_, ?_, ?_, ?_, hiter, ?_⟩
  · rw [htr]; rfl
  · rw [htr]; decide
  · rw [htr]; decide
  · rw [htr]; decide
  · rw [htr]; decide
  · rw [htr]; decide
  · intro ls2 h2
    simp [bootTrace, h2]

/-- C6 witness: a persisted counter of 6 exceeds the threshold 5 and locks
every boot of that session out of user code. -/
theorem nodeLock_boot_gate_witness :
    bootTrace ⟨6⟩ = [BootStep.lockCheck, BootStep.lockHalt] ∧
    (bootTrace ⟨6⟩).head? = some BootStep.lockCheck ∧
    BootStep.hwInit ∉ bootTrace ⟨6⟩ ∧
    BootStep.transportInit ∉ bootTrace ⟨6⟩ ∧
    BootStep.registration ∉ bootTrace ⟨6⟩ ∧
    BootStep.userSetup ∉ bootTrace ⟨6⟩ ∧
    BootStep.userLoop ∉ bootTrace ⟨6⟩ ∧
    (∀ n : Nat, (nodeLockStep^[n] ⟨0, false⟩).exited = false) ∧
    (∀ ls2 : LockState, nodeLocked ls2 = true →
        bootTrace ls2 = [BootStep.lockCheck, BootStep.lockHalt]) :=
  nodeLock_boot_gate ⟨6⟩ rfl

end MySensors
